import Mathlib

/-!
Shallow embedding of the crop-geometry engine
(`src/components/Crop/utils.tsx`, `src/components/Crop/mathExtension.tsx`).

Numbers are embedded as rationals; a rotation angle is embedded by the pair
of its cosine and sine (`Angle`), so that every definition stays computable.
Theorems that depend on trigonometric identities assume `Angle.unit`
(cos² + sin² = 1), which is what rotation by a real angle guarantees.
-/

namespace ImageCrop

/-- The `Point` interface from mathExtension.tsx. -/
structure Point where
  x : ℚ
  y : ℚ
deriving DecidableEq, Repr

/-- The `Dimension` interface from utils.tsx (fields in source order). -/
structure Dimension where
  height : ℚ
  width : ℚ
deriving DecidableEq, Repr

/-- An angle represented by its cosine and sine. -/
structure Angle where
  c : ℚ
  s : ℚ
deriving DecidableEq, Repr

/-- A genuine angle has cos² + sin² = 1. -/
def Angle.unit (a : Angle) : Prop := a.c ^ 2 + a.s ^ 2 = 1

/-- Negating an angle keeps the cosine and flips the sine. -/
def Angle.neg (a : Angle) : Angle := ⟨a.c, -a.s⟩

/-- The angle 0 (cos 0 = 1, sin 0 = 0). -/
def angle0 : Angle := ⟨1, 0⟩

/-- Rotation of a point about the origin, as `DOMMatrix().rotate` performs it. -/
def rotP (a : Angle) (p : Point) : Point :=
  ⟨p.x * a.c - p.y * a.s, p.x * a.s + p.y * a.c⟩

/-- The `CropState` interface from utils.tsx: x, y are the center, angle the rotation. -/
structure CropState where
  x : ℚ
  y : ℚ
  height : ℚ
  width : ℚ
  angle : Angle
deriving DecidableEq, Repr

/-- Function `clamp` from mathExtension.tsx. -/
def clamp (a lo hi : ℚ) : ℚ := min (max a lo) hi

/-- Function `midpoint` from mathExtension.tsx. -/
def midpoint (a b : Point) : Point := ⟨(a.x + b.x) / 2, (a.y + b.y) / 2⟩

/-- Function `signsMatch` from mathExtension.tsx: 0 matches either sign, otherwise
the two "is negative" predicates must agree. -/
def signsMatch (a b : ℚ) : Bool :=
  if a = 0 ∨ b = 0 then true else decide (a < 0) == decide (b < 0)

/-- Function `sign` from mathExtension.tsx. -/
def sign (a : ℚ) : ℚ := if a = 0 then 0 else if a < 0 then -1 else 1

/-- Function `maxMagnitude` from mathExtension.tsx, at its two-argument use sites:
`reduce` keeps the later value on ties. -/
def maxMagnitude (a b : ℚ) : ℚ := if |a| > |b| then a else b

/-- The constant `Number.EPSILON`, the machine epsilon 2⁻⁵². -/
def eps : ℚ := 1 / 2 ^ 52

/-- Function `approxEqual` from mathExtension.tsx. -/
def approxEqual (a b : ℚ) : Bool := decide (|a - b| < maxMagnitude a b * eps)

/-- Function `isWithin` from utils.tsx (note the strict lower bounds). -/
def isWithin (p : Point) (d : Dimension) : Prop :=
  0 < p.x ∧ p.x ≤ d.width - 1 ∧ 0 < p.y ∧ p.y ≤ d.height - 1

instance (p : Point) (d : Dimension) : Decidable (isWithin p d) :=
  inferInstanceAs (Decidable (_ ∧ _ ∧ _ ∧ _))

/-- The four corners `a`, `b`, `c`, `d` of a crop. -/
structure Corners where
  a : Point
  b : Point
  c : Point
  d : Point
deriving DecidableEq, Repr

/-- Function `getCorners` from utils.tsx: rotate the four local corners by the crop's
angle and translate them by the crop's center. -/
def getCorners (crop : CropState) : Corners :=
  let tr : Point → Point := fun lp =>
    let r := rotP crop.angle lp
    ⟨r.x + crop.x, r.y + crop.y⟩
  ⟨tr ⟨-crop.width / 2, -crop.height / 2⟩,
   tr ⟨crop.width / 2, -crop.height / 2⟩,
   tr ⟨crop.width / 2, crop.height / 2⟩,
   tr ⟨-crop.width / 2, crop.height / 2⟩⟩

/-- Function `getInverseCorner` from utils.tsx: translate by `-center`, rotate by the
negated angle. -/
def getInverseCorner (p center : Point) (angle : Angle) : Point :=
  rotP angle.neg ⟨p.x - center.x, p.y - center.y⟩

/-- Function `nearestPointInBounds` from utils.tsx. -/
def nearestPointInBounds (p : Point) (d : Dimension) : Point :=
  ⟨clamp p.x 0 (d.width - 1), clamp p.y 0 (d.height - 1)⟩

/-- The `{dx, dy}` result of `shiftRequired`. -/
structure Shift where
  dx : ℚ
  dy : ℚ
deriving DecidableEq, Repr

/-- Function `shiftRequired` from utils.tsx. -/
def shiftRequired (p : Point) (image : Dimension) : Shift :=
  ⟨if p.x ≥ image.width then image.width - p.x - 1 else if p.x < 0 then -p.x else 0,
   if p.y ≥ image.height then image.height - p.y - 1 else if p.y < 0 then -p.y else 0⟩

/-- Function `setCorner` from utils.tsx: rebuild a crop from a corner, its opposite
corner, and the rotation. -/
def setCorner (pP o : Point) (angle : Angle) : CropState :=
  let center := midpoint pP o
  let pTemp := getInverseCorner pP center angle
  { x := center.x, y := center.y, angle := angle,
    height := |pTemp.y * 2|, width := |pTemp.x * 2| }

/-- Function `fitPoint` from utils.tsx. -/
def fitPoint (p o : Point) (image : Dimension) (asp : Option ℚ) (angle : Angle)
    (diagonal : ℚ) : CropState :=
  let pShift := shiftRequired p image
  let oShift := shiftRequired o image
  let p1 : Point := if sign pShift.dx = sign oShift.dx then
    ⟨p.x + maxMagnitude pShift.dx oShift.dx, p.y⟩ else p
  let o1 : Point := if sign pShift.dx = sign oShift.dx then
    ⟨o.x + maxMagnitude pShift.dx oShift.dx, o.y⟩ else o
  let p2 : Point := if sign pShift.dy = sign oShift.dy then
    ⟨p1.x, p1.y + maxMagnitude pShift.dy oShift.dy⟩ else p1
  let o2 : Point := if sign pShift.dy = sign oShift.dy then
    ⟨o1.x, o1.y + maxMagnitude pShift.dy oShift.dy⟩ else o1
  match asp with
  | none => setCorner (nearestPointInBounds p2 image) o2 angle
  | some a =>
    let slope := rotP angle ⟨a, diagonal⟩
    let t1x := -o2.x / slope.x
    let t2x := (image.width - 1 - o2.x) / slope.x
    let t1y := -o2.y / slope.y
    let t2y := (image.height - 1 - o2.y) / slope.y
    let lu : ℚ × ℚ :=
      if slope.x = 0 then (t1y, t2y)
      else if slope.y = 0 then (t1x, t2x)
      else if slope.x > 0 ∧ slope.y > 0 then (max t1x t1y, min t2x t2y)
      else if slope.x < 0 ∧ slope.y > 0 then (max t1y t2x, min t2y t1x)
      else if slope.x < 0 ∧ slope.y < 0 then (max t2y t2x, min t1y t1x)
      else (max t2y t1x, min t1y t2x)
    let t := (slope.y * (p2.y - o2.y) + slope.x * (p2.x - o2.x)) /
      (slope.y ^ 2 + slope.x ^ 2)
    let tFit := clamp t (min lu.1 lu.2) (max lu.1 lu.2)
    setCorner ⟨o2.x + tFit * slope.x, o2.y + tFit * slope.y⟩ o2 angle

/-- The `Transformations` enum from utils.tsx. -/
inductive Transformations where
  | TRANSLATE
  | SCALE
deriving DecidableEq, Repr

/-- The SCALE branch of `fitCrop`: fix the corners in order a, b, c, d,
recomputing the corners after each fix. -/
def fitCropScale (c : CropState) (image : Dimension) (asp : Option ℚ) : CropState :=
  let pts0 := getCorners c
  let s1 : CropState × Corners :=
    if isWithin pts0.a image then (c, pts0) else
      let cx := fitPoint pts0.a pts0.c image asp c.angle 1
      (cx, getCorners cx)
  let s2 : CropState × Corners :=
    if isWithin s1.2.b image then s1 else
      let cx := fitPoint s1.2.b s1.2.d image asp c.angle (-1)
      (cx, getCorners cx)
  let s3 : CropState × Corners :=
    if isWithin s2.2.c image then s2 else
      let cx := fitPoint s2.2.c s2.2.a image asp c.angle 1
      (cx, getCorners cx)
  if isWithin s3.2.d image then s3.1 else
    fitPoint s3.2.d s3.2.b image asp c.angle (-1)

/-- The a-corner pass of `fitCropScale`, on a (crop, corners) state. -/
def scaleA (image : Dimension) (asp : Option ℚ) (θ : Angle)
    (s : CropState × Corners) : CropState × Corners :=
  if isWithin s.2.a image then s else
    let cx := fitPoint s.2.a s.2.c image asp θ 1
    (cx, getCorners cx)

/-- The b-corner pass of `fitCropScale`. -/
def scaleB (image : Dimension) (asp : Option ℚ) (θ : Angle)
    (s : CropState × Corners) : CropState × Corners :=
  if isWithin s.2.b image then s else
    let cx := fitPoint s.2.b s.2.d image asp θ (-1)
    (cx, getCorners cx)

/-- The c-corner pass of `fitCropScale`. -/
def scaleC (image : Dimension) (asp : Option ℚ) (θ : Angle)
    (s : CropState × Corners) : CropState × Corners :=
  if isWithin s.2.c image then s else
    let cx := fitPoint s.2.c s.2.a image asp θ 1
    (cx, getCorners cx)

/-- The d-corner pass of `fitCropScale` (the source does not recompute the
corners after this last fix). -/
def scaleD (image : Dimension) (asp : Option ℚ) (θ : Angle)
    (s : CropState × Corners) : CropState :=
  if isWithin s.2.d image then s.1 else
    fitPoint s.2.d s.2.b image asp θ (-1)

/-- One iteration of the delta-accumulation loop in `fitCrop`'s TRANSLATE
branch. `none` is the early `return` that falls back to SCALE. -/
def transStep (delta dist : Shift) : Option Shift :=
  let dxO : Option ℚ :=
    if delta.dx = 0 then some dist.dx
    else if signsMatch delta.dx dist.dx then some (maxMagnitude delta.dx dist.dx)
    else none
  match dxO with
  | none => none
  | some dx =>
    let dyO : Option ℚ :=
      if delta.dy = 0 then some dist.dy
      else if signsMatch delta.dy dist.dy then some (maxMagnitude delta.dy dist.dy)
      else none
    match dyO with
    | none => none
    | some dy => some ⟨dx, dy⟩

/-- The delta-accumulation loop of `fitCrop`'s TRANSLATE branch. -/
def transFold (delta : Shift) : List Shift → Option Shift
  | [] => some delta
  | d :: rest =>
    match transStep delta d with
    | none => none
    | some delta2 => transFold delta2 rest

/-- Function `fitCrop` from utils.tsx. The TRANSLATE branch falls back to the SCALE
branch (which never recurses) exactly where the source does. -/
def fitCrop (c : CropState) (image : Dimension) (asp : Option ℚ)
    (t : Transformations) : CropState :=
  match t with
  | .SCALE => fitCropScale c image asp
  | .TRANSLATE =>
    let pts := getCorners c
    let tempPoints := [pts.a, pts.b, pts.c, pts.d]
    let distances := tempPoints.map (fun p => shiftRequired p image)
    match transFold ⟨0, 0⟩ distances with
    | none => fitCropScale c image asp
    | some delta =>
      if delta.dx = 0 ∧ delta.dy = 0 then c
      else
        let cP := { c with x := c.x + delta.dx, y := c.y + delta.dy }
        if tempPoints.any (fun p => decide (p.x + delta.dx < 0 ∨
            p.x + delta.dx ≥ image.width ∨ p.y + delta.dy < 0 ∨
            p.y + delta.dy ≥ image.height))
        then fitCropScale cP image asp
        else cP

/-- One axis of `shiftRequired` as a scalar function (for axis-uniform proofs;
`shiftRequired p image = ⟨shift1d p.x image.width, shift1d p.y image.height⟩`
holds by `rfl`). -/
def shift1d (v w : ℚ) : ℚ :=
  if v ≥ w then w - v - 1 else if v < 0 then -v else 0

/-- One axis of the simultaneous-overflow shift that `fitPoint` applies to
both `p` and `o` before anything else: the common displacement is
`maxMagnitude` of the two required shifts when their signs agree, else 0. -/
def jointShift1d (pv ov w : ℚ) : ℚ :=
  if sign (shift1d pv w) = sign (shift1d ov w)
  then maxMagnitude (shift1d pv w) (shift1d ov w) else 0

/-- The common x-displacement `fitPoint` applies to `p` and `o`. -/
def jointShiftX (p o : Point) (image : Dimension) : ℚ :=
  jointShift1d p.x o.x image.width

/-- The common y-displacement `fitPoint` applies to `p` and `o`. -/
def jointShiftY (p o : Point) (image : Dimension) : ℚ :=
  jointShift1d p.y o.y image.height

/-- Membership of a point in the closed pixel box
`[0, width−1] × [0, height−1]` — the containment region of the claims. -/
def inBounds (p : Point) (d : Dimension) : Prop :=
  0 ≤ p.x ∧ p.x ≤ d.width - 1 ∧ 0 ≤ p.y ∧ p.y ≤ d.height - 1

instance (p : Point) (d : Dimension) : Decidable (inBounds p d) :=
  inferInstanceAs (Decidable (_ ∧ _ ∧ _ ∧ _))

/-- Function `resetCrop` from utils.tsx. -/
def resetCrop (image : Dimension) (asp : Option ℚ) : CropState :=
  match asp with
  | none =>
    { x := image.width / 2, y := image.height / 2, angle := angle0,
      width := image.width, height := image.height }
  | some a =>
    let imgAspect := image.width / image.height
    if imgAspect > a then
      { x := image.width / 2, y := image.height / 2,
        width := image.height * a, height := image.height, angle := angle0 }
    else
      { x := image.width / 2, y := image.height / 2,
        width := image.width, height := image.width / a, angle := angle0 }

/-! ## Basic lemmas -/

theorem shiftRequired_eq (p : Point) (image : Dimension) :
    shiftRequired p image = ⟨shift1d p.x image.width, shift1d p.y image.height⟩ := rfl

/-- Per-axis characterization of `shift1d` on a positive-width axis: zero
exactly on `[0, w)`, the distance to 0 below, the distance to `w−1` at or
above `w`. -/
theorem shift1d_spec (v w : ℚ) (hw : 0 < w) :
    (shift1d v w = 0 ↔ 0 ≤ v ∧ v < w) ∧ (v < 0 → shift1d v w = -v) ∧
    (w ≤ v → shift1d v w = w - 1 - v) := by
  unfold shift1d
  split_ifs with h1 h2
  · exact ⟨⟨fun h => absurd (by linarith : w ≤ w - 1) (by linarith),
      fun h => absurd h1 (not_le.mpr h.2)⟩,
      fun h => absurd h1 (not_le.mpr (by linarith)), fun _ => by ring⟩
  · exact ⟨⟨fun h => absurd (by linarith : v = 0) (by linarith),
      fun h => absurd h2 (not_lt.mpr h.1)⟩, fun _ => rfl, fun h => absurd h h1⟩
  · exact ⟨⟨fun _ => ⟨not_lt.mp h2, not_le.mp h1⟩, fun _ => rfl⟩,
      fun h => absurd h h2, fun h => absurd h h1⟩

/-- The function `fitCropScale` is the four corner passes in sequence. -/
theorem fitCropScale_steps (c : CropState) (image : Dimension) (asp : Option ℚ) :
    fitCropScale c image asp =
      scaleD image asp c.angle (scaleC image asp c.angle (scaleB image asp c.angle
        (scaleA image asp c.angle (c, getCorners c)))) := rfl

theorem isWithin_inBounds {p : Point} {d : Dimension} (h : isWithin p d) :
    inBounds p d :=
  ⟨le_of_lt h.1, h.2.1, le_of_lt h.2.2.1, h.2.2.2⟩

theorem sign_zero : sign 0 = 0 := rfl

theorem sign_of_pos {a : ℚ} (h : 0 < a) : sign a = 1 := by
  unfold sign
  rw [if_neg (ne_of_gt h), if_neg (not_lt.mpr (le_of_lt h))]

theorem sign_of_neg {a : ℚ} (h : a < 0) : sign a = -1 := by
  unfold sign
  rw [if_neg (ne_of_lt h), if_pos h]

theorem sign_eq_zero {a : ℚ} (h : sign a = 0) : a = 0 := by
  by_contra hne
  rcases lt_or_gt_of_ne hne with hlt | hgt
  · rw [sign_of_neg hlt] at h
    norm_num at h
  · rw [sign_of_pos hgt] at h
    norm_num at h

theorem maxMagnitude_zero : maxMagnitude 0 0 = 0 := by
  unfold maxMagnitude
  rw [if_neg (lt_irrefl _)]

/-- The three regions of `shift1d`. -/
theorem shift1d_cases (v w : ℚ) :
    (v < 0 ∧ shift1d v w = -v) ∨ (0 ≤ v ∧ v < w ∧ shift1d v w = 0) ∨
      (w ≤ v ∧ shift1d v w = w - 1 - v) := by
  unfold shift1d
  split_ifs with h1 h2
  · exact Or.inr (Or.inr ⟨h1, by ring⟩)
  · exact Or.inl ⟨h2, rfl⟩
  · exact Or.inr (Or.inl ⟨not_lt.mp h2, not_le.mp h1, rfl⟩)

theorem shift1d_zero {v w : ℚ} (h0 : 0 ≤ v) (h1 : v < w) : shift1d v w = 0 := by
  unfold shift1d
  rw [if_neg (not_le.mpr h1), if_neg (not_lt.mpr h0)]

/-- If the opposite point is already inside `[0, w−1]` on an axis, the joint
shift on that axis is 0. -/
theorem js_zero_o {pv ov w : ℚ} (h0 : 0 ≤ ov) (h1 : ov ≤ w - 1) :
    jointShift1d pv ov w = 0 := by
  have ho : shift1d ov w = 0 := shift1d_zero h0 (by linarith)
  unfold jointShift1d
  rw [ho, sign_zero]
  by_cases h : sign (shift1d pv w) = 0
  · rw [if_pos h, sign_eq_zero h, maxMagnitude_zero]
  · rw [if_neg h]

/-- If the moved point is already inside `[0, w−1]` on an axis, the joint
shift on that axis is 0. -/
theorem js_zero_p {pv ov w : ℚ} (h0 : 0 ≤ pv) (h1 : pv ≤ w - 1) :
    jointShift1d pv ov w = 0 := by
  have hp : shift1d pv w = 0 := shift1d_zero h0 (by linarith)
  unfold jointShift1d
  rw [hp, sign_zero]
  by_cases h : (0 : ℚ) = sign (shift1d ov w)
  · rw [if_pos h, sign_eq_zero h.symm, maxMagnitude_zero]
  · rw [if_neg h]

/-- Applying the joint shift to the larger coordinate of an ordered pair
never drives it below 0. -/
theorem js_nonneg {pv ov w : ℚ} (hw : 1 ≤ w) (hpo : pv ≤ ov) :
    0 ≤ ov + jointShift1d pv ov w := by
  unfold jointShift1d maxMagnitude
  rcases shift1d_cases pv w with ⟨hp, hpe⟩ | ⟨hp0, hp1, hpe⟩ | ⟨hp, hpe⟩ <;>
    rcases shift1d_cases ov w with ⟨ho, hoe⟩ | ⟨ho0, ho1, hoe⟩ | ⟨ho, hoe⟩ <;>
    rw [hpe, hoe]
  · rw [if_pos (by rw [sign_of_pos (by linarith), sign_of_pos (by linarith)])]
    split_ifs <;> linarith
  · rw [if_neg (by rw [sign_of_pos (by linarith), sign_zero]; norm_num)]
    linarith
  · rw [if_neg (by rw [sign_of_pos (by linarith), sign_of_neg (by linarith)]; norm_num)]
    linarith
  · linarith
  · rw [if_pos (by rw [sign_zero])]
    split_ifs <;> linarith
  · rw [if_neg (by rw [sign_zero, sign_of_neg (by linarith)]; norm_num)]
    linarith
  · linarith
  · linarith
  · rw [if_pos (by rw [sign_of_neg (by linarith), sign_of_neg (by linarith)])]
    split_ifs <;> linarith

theorem clamp_mem {v lo hi : ℚ} (h : lo ≤ hi) :
    lo ≤ clamp v lo hi ∧ clamp v lo hi ≤ hi := by
  unfold clamp
  exact ⟨le_min (le_max_right v lo) h, min_le_right _ _⟩

theorem half_sub_abs (u v : ℚ) : (u + v) / 2 - |u - v| / 2 = min u v := by
  rcases le_total u v with h | h
  · rw [abs_of_nonpos (by linarith), min_eq_left h]
    ring
  · rw [abs_of_nonneg (by linarith), min_eq_right h]
    ring

theorem half_add_abs (u v : ℚ) : (u + v) / 2 + |u - v| / 2 = max u v := by
  rcases le_total u v with h | h
  · rw [abs_of_nonpos (by linarith), max_eq_right h]
    ring
  · rw [abs_of_nonneg (by linarith), max_eq_left h]
    ring

/-- Corners of an unrotated crop. -/
theorem getCorners_angle0 (c : CropState) (h : c.angle = angle0) :
    getCorners c = ⟨⟨c.x - c.width / 2, c.y - c.height / 2⟩,
      ⟨c.x + c.width / 2, c.y - c.height / 2⟩,
      ⟨c.x + c.width / 2, c.y + c.height / 2⟩,
      ⟨c.x - c.width / 2, c.y + c.height / 2⟩⟩ := by
  unfold getCorners rotP
  rw [h]
  unfold angle0
  dsimp only
  simp only [Corners.mk.injEq, Point.mk.injEq]
  refine ⟨⟨by ring, by ring⟩, ⟨by ring, by ring⟩, ⟨by ring, by ring⟩, by ring, by ring⟩

/-- Behavior of `setCorner` at angle 0: midpoint center, absolute-difference extents. -/
theorem setCorner_angle0 (p o : Point) :
    setCorner p o angle0 =
      { x := (p.x + o.x) / 2, y := (p.y + o.y) / 2,
        height := abs (p.y - o.y), width := abs (p.x - o.x), angle := angle0 } := by
  unfold setCorner midpoint getInverseCorner rotP Angle.neg
  dsimp only [angle0]
  rw [CropState.mk.injEq]
  refine ⟨by ring, by ring, ?_, ?_, rfl⟩
  · congr 1
    ring
  · congr 1
    ring

/-- The corners of the crop `setCorner` builds at angle 0 form the bounding
box of the two given points. -/
theorem corners_box (p o : Point) :
    getCorners (setCorner p o angle0) =
      ⟨⟨min p.x o.x, min p.y o.y⟩, ⟨max p.x o.x, min p.y o.y⟩,
       ⟨max p.x o.x, max p.y o.y⟩, ⟨min p.x o.x, max p.y o.y⟩⟩ := by
  rw [setCorner_angle0, getCorners_angle0 _ rfl]
  dsimp only
  rw [half_sub_abs p.x o.x, half_sub_abs p.y o.y, half_add_abs p.x o.x, half_add_abs p.y o.y]

/-- Behavior of `fitPoint` without an aspect constraint, written through the joint
shifts: clamp the shifted `p`, keep the shifted `o`. -/
theorem fitPoint_none (p o : Point) (image : Dimension) (θ : Angle) (diag : ℚ) :
    fitPoint p o image none θ diag =
      setCorner (nearestPointInBounds
          ⟨p.x + jointShiftX p o image, p.y + jointShiftY p o image⟩ image)
        ⟨o.x + jointShiftX p o image, o.y + jointShiftY p o image⟩ θ := by
  unfold fitPoint jointShiftX jointShiftY jointShift1d
  dsimp only
  rw [shiftRequired_eq p image, shiftRequired_eq o image]
  dsimp only
  split_ifs <;> simp

theorem fitPoint_angle (p o : Point) (image : Dimension) (asp : Option ℚ)
    (θ : Angle) (diag : ℚ) : (fitPoint p o image asp θ diag).angle = θ := by
  unfold fitPoint
  cases asp <;> rfl

/-- A free-aspect angle-0 fix whose opposite corner already lies in the
closed pixel box leaves every corner of the result in the box. -/
theorem fitPoint_none_box_inB (p o : Point) (image : Dimension) (diag : ℚ)
    (hw : 1 ≤ image.width) (hh : 1 ≤ image.height) (ho : inBounds o image) :
    inBounds (getCorners (fitPoint p o image none angle0 diag)).a image ∧
    inBounds (getCorners (fitPoint p o image none angle0 diag)).b image ∧
    inBounds (getCorners (fitPoint p o image none angle0 diag)).c image ∧
    inBounds (getCorners (fitPoint p o image none angle0 diag)).d image := by
  rw [fitPoint_none]
  simp only [jointShiftX, jointShiftY]
  try dsimp only
  rw [js_zero_o ho.1 ho.2.1, js_zero_o ho.2.2.1 ho.2.2.2]
  simp only [add_zero]
  rw [corners_box]
  dsimp only [nearestPointInBounds]
  have hclx := @clamp_mem p.x 0 (image.width - 1) (by linarith)
  have hcly := @clamp_mem p.y 0 (image.height - 1) (by linarith)
  exact ⟨⟨le_min hclx.1 ho.1, le_trans (min_le_left _ _) hclx.2,
      le_min hcly.1 ho.2.2.1, le_trans (min_le_left _ _) hcly.2⟩,
    ⟨le_trans hclx.1 (le_max_left _ _), max_le hclx.2 ho.2.1,
      le_min hcly.1 ho.2.2.1, le_trans (min_le_left _ _) hcly.2⟩,
    ⟨le_trans hclx.1 (le_max_left _ _), max_le hclx.2 ho.2.1,
      le_trans hcly.1 (le_max_left _ _), max_le hcly.2 ho.2.2.2⟩,
    ⟨le_min hclx.1 ho.1, le_trans (min_le_left _ _) hclx.2,
      le_trans hcly.1 (le_max_left _ _), max_le hcly.2 ho.2.2.2⟩⟩

/-- The a-corner pass of the free-aspect angle-0 SCALE fit: the state stays
well-formed and its a corner lands in the closed pixel box. -/
theorem scaleA_inv (image : Dimension) (c : CropState) (k : Corners)
    (hw : 1 ≤ image.width) (hh : 1 ≤ image.height)
    (hk : k = getCorners c) (hang : c.angle = angle0)
    (h0w : 0 ≤ c.width) (h0h : 0 ≤ c.height) :
    (scaleA image none angle0 (c, k)).2 = getCorners (scaleA image none angle0 (c, k)).1 ∧
    (scaleA image none angle0 (c, k)).1.angle = angle0 ∧
    0 ≤ (scaleA image none angle0 (c, k)).1.width ∧
    0 ≤ (scaleA image none angle0 (c, k)).1.height ∧
    inBounds (scaleA image none angle0 (c, k)).2.a image := by
  subst hk
  have hge := getCorners_angle0 c hang
  unfold scaleA
  try dsimp only
  by_cases h : isWithin (getCorners c).a image
  · rw [if_pos h]
    exact ⟨rfl, hang, h0w, h0h, isWithin_inBounds h⟩
  · rw [if_neg h]
    try dsimp only
    refine ⟨rfl, fitPoint_angle _ _ _ _ _ _, ?_, ?_, ?_⟩
    · rw [fitPoint_none, setCorner_angle0]
      exact abs_nonneg _
    · rw [fitPoint_none, setCorner_angle0]
      exact abs_nonneg _
    · rw [hge]
      try dsimp only
      rw [fitPoint_none]
      simp only [jointShiftX, jointShiftY]
      try dsimp only
      rw [corners_box]
      dsimp only [nearestPointInBounds]
      have hjx := @js_nonneg (c.x - c.width / 2) (c.x + c.width / 2)
        image.width hw (by linarith)
      have hjy := @js_nonneg (c.y - c.height / 2) (c.y + c.height / 2)
        image.height hh (by linarith)
      have hclx := @clamp_mem (c.x - c.width / 2 +
        jointShift1d (c.x - c.width / 2) (c.x + c.width / 2) image.width)
        0 (image.width - 1) (by linarith)
      have hcly := @clamp_mem (c.y - c.height / 2 +
        jointShift1d (c.y - c.height / 2) (c.y + c.height / 2) image.height)
        0 (image.height - 1) (by linarith)
      exact ⟨le_min hclx.1 hjx, le_trans (min_le_left _ _) hclx.2,
        le_min hcly.1 hjy, le_trans (min_le_left _ _) hcly.2⟩

/-- The b-corner pass: given the a corner in the box, the a and b corners of
the output are in the box. -/
theorem scaleB_inv (image : Dimension) (c : CropState) (k : Corners)
    (hw : 1 ≤ image.width) (hh : 1 ≤ image.height)
    (hk : k = getCorners c) (hang : c.angle = angle0)
    (h0w : 0 ≤ c.width) (h0h : 0 ≤ c.height)
    (hA : inBounds k.a image) :
    (scaleB image none angle0 (c, k)).2 = getCorners (scaleB image none angle0 (c, k)).1 ∧
    (scaleB image none angle0 (c, k)).1.angle = angle0 ∧
    0 ≤ (scaleB image none angle0 (c, k)).1.width ∧
    0 ≤ (scaleB image none angle0 (c, k)).1.height ∧
    inBounds (scaleB image none angle0 (c, k)).2.a image ∧
    inBounds (scaleB image none angle0 (c, k)).2.b image := by
  subst hk
  have hge := getCorners_angle0 c hang
  rw [hge] at hA
  obtain ⟨hA1, hA2, hA3, hA4⟩ := hA
  dsimp only at hA1 hA2 hA3 hA4
  unfold scaleB
  try dsimp only
  by_cases h : isWithin (getCorners c).b image
  · rw [if_pos h]
    refine ⟨rfl, hang, h0w, h0h, ?_, isWithin_inBounds h⟩
    rw [hge]
    exact ⟨hA1, hA2, hA3, hA4⟩
  · rw [if_neg h]
    try dsimp only
    refine ⟨rfl, fitPoint_angle _ _ _ _ _ _, ?_, ?_, ?_, ?_⟩
    · rw [fitPoint_none, setCorner_angle0]
      exact abs_nonneg _
    · rw [fitPoint_none, setCorner_angle0]
      exact abs_nonneg _
    · rw [hge]
      try dsimp only
      rw [fitPoint_none]
      simp only [jointShiftX, jointShiftY]
      try dsimp only
      rw [js_zero_o hA1 hA2, js_zero_p hA3 hA4]
      simp only [add_zero]
      rw [corners_box]
      dsimp only [nearestPointInBounds]
      have hclx := @clamp_mem (c.x + c.width / 2) 0 (image.width - 1) (by linarith)
      have hcly := @clamp_mem (c.y - c.height / 2) 0 (image.height - 1) (by linarith)
      exact ⟨le_min hclx.1 hA1, le_trans (min_le_right _ _) hA2,
        le_min hcly.1 (by linarith), le_trans (min_le_left _ _) hcly.2⟩
    · rw [hge]
      try dsimp only
      rw [fitPoint_none]
      simp only [jointShiftX, jointShiftY]
      try dsimp only
      rw [js_zero_o hA1 hA2, js_zero_p hA3 hA4]
      simp only [add_zero]
      rw [corners_box]
      dsimp only [nearestPointInBounds]
      have hclx := @clamp_mem (c.x + c.width / 2) 0 (image.width - 1) (by linarith)
      have hcly := @clamp_mem (c.y - c.height / 2) 0 (image.height - 1) (by linarith)
      exact ⟨le_trans hclx.1 (le_max_left _ _), max_le hclx.2 hA2,
        le_min hcly.1 (by linarith), le_trans (min_le_left _ _) hcly.2⟩

/-- The c-corner pass: given the a and b corners in the box, every corner of
the output is in the box. -/
theorem scaleC_inv (image : Dimension) (c : CropState) (k : Corners)
    (hw : 1 ≤ image.width) (hh : 1 ≤ image.height)
    (hk : k = getCorners c) (hang : c.angle = angle0)
    (h0w : 0 ≤ c.width) (h0h : 0 ≤ c.height)
    (hA : inBounds k.a image) (hB : inBounds k.b image) :
    (scaleC image none angle0 (c, k)).2 = getCorners (scaleC image none angle0 (c, k)).1 ∧
    (scaleC image none angle0 (c, k)).1.angle = angle0 ∧
    0 ≤ (scaleC image none angle0 (c, k)).1.width ∧
    0 ≤ (scaleC image none angle0 (c, k)).1.height ∧
    inBounds (scaleC image none angle0 (c, k)).2.a image ∧
    inBounds (scaleC image none angle0 (c, k)).2.b image ∧
    inBounds (scaleC image none angle0 (c, k)).2.c image ∧
    inBounds (scaleC image none angle0 (c, k)).2.d image := by
  subst hk
  have hge := getCorners_angle0 c hang
  unfold scaleC
  try dsimp only
  by_cases h : isWithin (getCorners c).c image
  · rw [if_pos h]
    refine ⟨rfl, hang, h0w, h0h, hA, hB, isWithin_inBounds h, ?_⟩
    have hA' := hA
    have hc' := isWithin_inBounds h
    rw [hge] at hA' hc' ⊢
    obtain ⟨hA1, hA2, hA3, hA4⟩ := hA'
    obtain ⟨hc1, hc2, hc3, hc4⟩ := hc'
    dsimp only at hA1 hA2 hA3 hA4 hc1 hc2 hc3 hc4 ⊢
    exact ⟨hA1, hA2, hc3, hc4⟩
  · rw [if_neg h]
    try dsimp only
    have hbox := fitPoint_none_box_inB (getCorners c).c (getCorners c).a image 1 hw hh hA
    refine ⟨rfl, fitPoint_angle _ _ _ _ _ _, ?_, ?_, hbox.1, hbox.2.1, hbox.2.2.1, hbox.2.2.2⟩
    · rw [fitPoint_none, setCorner_angle0]
      exact abs_nonneg _
    · rw [fitPoint_none, setCorner_angle0]
      exact abs_nonneg _

/-- The d-corner pass: given all four corners in the box, every corner of
the final crop is in the box. -/
theorem scaleD_final (image : Dimension) (c : CropState) (k : Corners)
    (hw : 1 ≤ image.width) (hh : 1 ≤ image.height)
    (hk : k = getCorners c)
    (hA : inBounds k.a image) (hB : inBounds k.b image)
    (hC : inBounds k.c image) (hD : inBounds k.d image) :
    inBounds (getCorners (scaleD image none angle0 (c, k))).a image ∧
    inBounds (getCorners (scaleD image none angle0 (c, k))).b image ∧
    inBounds (getCorners (scaleD image none angle0 (c, k))).c image ∧
    inBounds (getCorners (scaleD image none angle0 (c, k))).d image := by
  subst hk
  unfold scaleD
  try dsimp only
  by_cases h : isWithin (getCorners c).d image
  · rw [if_pos h]
    exact ⟨hA, hB, hC, hD⟩
  · rw [if_neg h]
    exact fitPoint_none_box_inB _ _ image (-1) hw hh hB

/-! ## C3 — Scenario C: TRANSLATE falls back to SCALE -/

set_option maxHeartbeats 1600000 in
/-- C3: for crop {x:550, y:250, width:1000, height:500, angle:0} on a
1000×500 image with no aspect, `fitCrop` in TRANSLATE mode falls back to
SCALE — the result equals the SCALE fit of the translated crop
{x:499, y:249, ...} — and the returned crop is no wider than 1000. -/
theorem C3_translate_fallback :
    fitCrop { x := 550, y := 250, height := 500, width := 1000, angle := angle0 }
        { height := 500, width := 1000 } none .TRANSLATE
      = { x := 999 / 2, y := 499 / 2, height := 499, width := 999, angle := angle0 } ∧
    fitCrop { x := 550, y := 250, height := 500, width := 1000, angle := angle0 }
        { height := 500, width := 1000 } none .TRANSLATE
      = fitCropScale { x := 499, y := 249, height := 500, width := 1000, angle := angle0 }
          { height := 500, width := 1000 } none ∧
    (fitCrop { x := 550, y := 250, height := 500, width := 1000, angle := angle0 }
        { height := 500, width := 1000 } none .TRANSLATE).width ≤ 1000 := by
  have hT : fitCrop { x := 550, y := 250, height := 500, width := 1000, angle := angle0 }
      { height := 500, width := 1000 } none .TRANSLATE
      = fitCropScale { x := 499, y := 249, height := 500, width := 1000, angle := angle0 }
        { height := 500, width := 1000 } none := by
    norm_num [fitCrop, getCorners, rotP, angle0, shiftRequired, transFold, transStep,
      signsMatch, maxMagnitude, List.any]
  have hS : fitCropScale { x := 499, y := 249, height := 500, width := 1000, angle := angle0 }
      { height := 500, width := 1000 } none
      = { x := 999 / 2, y := 499 / 2, height := 499, width := 999, angle := angle0 } := by
    rw [fitCropScale_steps]
    rw [show ({ x := 499, y := 249, height := 500, width := 1000, angle := angle0 } :
      CropState).angle = angle0 from rfl]
    rw [show getCorners { x := 499, y := 249, height := 500, width := 1000, angle := angle0 }
      = ⟨⟨-1, -1⟩, ⟨999, -1⟩, ⟨999, 499⟩, ⟨-1, 499⟩⟩ from by norm_num [getCorners, rotP, angle0]]
    rw [show scaleA { height := 500, width := 1000 } none angle0
        ({ x := 499, y := 249, height := 500, width := 1000, angle := angle0 },
          ⟨⟨-1, -1⟩, ⟨999, -1⟩, ⟨999, 499⟩, ⟨-1, 499⟩⟩)
      = ({ x := 999 / 2, y := 499 / 2, height := 499, width := 999, angle := angle0 },
          ⟨⟨0, 0⟩, ⟨999, 0⟩, ⟨999, 499⟩, ⟨0, 499⟩⟩) from by
        norm_num [scaleA, isWithin, fitPoint, shiftRequired, sign, maxMagnitude,
          nearestPointInBounds, clamp, setCorner, midpoint, getInverseCorner, Angle.neg,
          rotP, angle0, getCorners]]
    rw [show scaleB { height := 500, width := 1000 } none angle0
        ({ x := 999 / 2, y := 499 / 2, height := 499, width := 999, angle := angle0 },
          ⟨⟨0, 0⟩, ⟨999, 0⟩, ⟨999, 499⟩, ⟨0, 499⟩⟩)
      = ({ x := 999 / 2, y := 499 / 2, height := 499, width := 999, angle := angle0 },
          ⟨⟨0, 0⟩, ⟨999, 0⟩, ⟨999, 499⟩, ⟨0, 499⟩⟩) from by
        norm_num [scaleB, isWithin, fitPoint, shiftRequired, sign, maxMagnitude,
          nearestPointInBounds, clamp, setCorner, midpoint, getInverseCorner, Angle.neg,
          rotP, angle0, getCorners]]
    rw [show scaleC { height := 500, width := 1000 } none angle0
        ({ x := 999 / 2, y := 499 / 2, height := 499, width := 999, angle := angle0 },
          ⟨⟨0, 0⟩, ⟨999, 0⟩, ⟨999, 499⟩, ⟨0, 499⟩⟩)
      = ({ x := 999 / 2, y := 499 / 2, height := 499, width := 999, angle := angle0 },
          ⟨⟨0, 0⟩, ⟨999, 0⟩, ⟨999, 499⟩, ⟨0, 499⟩⟩) from by
        norm_num [scaleC, isWithin]]
    norm_num [scaleD, isWithin, fitPoint, shiftRequired, sign, maxMagnitude,
      nearestPointInBounds, clamp, setCorner, midpoint, getInverseCorner, Angle.neg,
      rotP, angle0]
  exact ⟨hT.trans hS, hT, by rw [hT, hS]; norm_num⟩

/-! ## C1 — bounds containment after fitCrop in SCALE mode -/

set_option maxHeartbeats 1600000 in
/-- Evaluation of the SCALE fit on the angle-0, aspect-1 crop
{x:170, y:0, w:200, h:10} over a 100×100 image: the result is the 1×1 crop
centered at (−1/2, −1/2). -/
theorem evalScaleBad1 :
    fitCropScale { x := 170, y := 0, height := 10, width := 200, angle := angle0 }
        { height := 100, width := 100 } (some 1)
      = { x := -1 / 2, y := -1 / 2, height := 1, width := 1, angle := angle0 } := by
  rw [fitCropScale_steps]
  rw [show ({ x := 170, y := 0, height := 10, width := 200, angle := angle0 } :
    CropState).angle = angle0 from rfl]
  rw [show getCorners { x := 170, y := 0, height := 10, width := 200, angle := angle0 }
    = ⟨⟨70, -5⟩, ⟨270, -5⟩, ⟨270, 5⟩, ⟨70, 5⟩⟩ from by norm_num [getCorners, rotP, angle0]]
  rw [show scaleA { height := 100, width := 100 } (some 1) angle0
      ({ x := 170, y := 0, height := 10, width := 200, angle := angle0 },
        ⟨⟨70, -5⟩, ⟨270, -5⟩, ⟨270, 5⟩, ⟨70, 5⟩⟩)
    = ({ x := 435 / 2, y := -95 / 2, height := 105, width := 105, angle := angle0 },
        ⟨⟨165, -100⟩, ⟨270, -100⟩, ⟨270, 5⟩, ⟨165, 5⟩⟩) from by
      norm_num [scaleA, isWithin, fitPoint, shiftRequired, sign, maxMagnitude,
        nearestPointInBounds, clamp, setCorner, midpoint, getInverseCorner, Angle.neg,
        rotP, angle0, getCorners]]
  rw [show scaleB { height := 100, width := 100 } (some 1) angle0
      ({ x := 435 / 2, y := -95 / 2, height := 105, width := 105, angle := angle0 },
        ⟨⟨165, -100⟩, ⟨270, -100⟩, ⟨270, 5⟩, ⟨165, 5⟩⟩)
    = ({ x := -3, y := 2, height := 6, width := 6, angle := angle0 },
        ⟨⟨-6, -1⟩, ⟨0, -1⟩, ⟨0, 5⟩, ⟨-6, 5⟩⟩) from by
      norm_num [scaleB, isWithin, fitPoint, shiftRequired, sign, maxMagnitude,
        nearestPointInBounds, clamp, setCorner, midpoint, getInverseCorner, Angle.neg,
        rotP, angle0, getCorners]]
  rw [show scaleC { height := 100, width := 100 } (some 1) angle0
      ({ x := -3, y := 2, height := 6, width := 6, angle := angle0 },
        ⟨⟨-6, -1⟩, ⟨0, -1⟩, ⟨0, 5⟩, ⟨-6, 5⟩⟩)
    = ({ x := -3, y := 2, height := 6, width := 6, angle := angle0 },
        ⟨⟨-6, -1⟩, ⟨0, -1⟩, ⟨0, 5⟩, ⟨-6, 5⟩⟩) from by
      norm_num [scaleC, isWithin, fitPoint, shiftRequired, sign, maxMagnitude,
        nearestPointInBounds, clamp, setCorner, midpoint, getInverseCorner, Angle.neg,
        rotP, angle0, getCorners]]
  norm_num [scaleD, isWithin, fitPoint, shiftRequired, sign, maxMagnitude,
    nearestPointInBounds, clamp, setCorner, midpoint, getInverseCorner, Angle.neg,
    rotP, angle0]

set_option maxHeartbeats 1600000 in
/-- A second SCALE fit on the previous result collapses it to the
degenerate all-zero crop. -/
theorem evalScaleBad2 :
    fitCropScale { x := -1 / 2, y := -1 / 2, height := 1, width := 1, angle := angle0 }
        { height := 100, width := 100 } (some 1)
      = { x := 0, y := 0, height := 0, width := 0, angle := angle0 } := by
  rw [fitCropScale_steps]
  rw [show ({ x := -1 / 2, y := -1 / 2, height := 1, width := 1, angle := angle0 } :
    CropState).angle = angle0 from rfl]
  rw [show getCorners { x := -1 / 2, y := -1 / 2, height := 1, width := 1, angle := angle0 }
    = ⟨⟨-1, -1⟩, ⟨0, -1⟩, ⟨0, 0⟩, ⟨-1, 0⟩⟩ from by norm_num [getCorners, rotP, angle0]]
  rw [show scaleA { height := 100, width := 100 } (some 1) angle0
      ({ x := -1 / 2, y := -1 / 2, height := 1, width := 1, angle := angle0 },
        ⟨⟨-1, -1⟩, ⟨0, -1⟩, ⟨0, 0⟩, ⟨-1, 0⟩⟩)
    = ({ x := 0, y := 0, height := 0, width := 0, angle := angle0 },
        ⟨⟨0, 0⟩, ⟨0, 0⟩, ⟨0, 0⟩, ⟨0, 0⟩⟩) from by
      norm_num [scaleA, isWithin, fitPoint, shiftRequired, sign, maxMagnitude,
        nearestPointInBounds, clamp, setCorner, midpoint, getInverseCorner, Angle.neg,
        rotP, angle0, getCorners]]
  rw [show scaleB { height := 100, width := 100 } (some 1) angle0
      ({ x := 0, y := 0, height := 0, width := 0, angle := angle0 },
        ⟨⟨0, 0⟩, ⟨0, 0⟩, ⟨0, 0⟩, ⟨0, 0⟩⟩)
    = ({ x := 0, y := 0, height := 0, width := 0, angle := angle0 },
        ⟨⟨0, 0⟩, ⟨0, 0⟩, ⟨0, 0⟩, ⟨0, 0⟩⟩) from by
      norm_num [scaleB, isWithin, fitPoint, shiftRequired, sign, maxMagnitude,
        nearestPointInBounds, clamp, setCorner, midpoint, getInverseCorner, Angle.neg,
        rotP, angle0, getCorners]]
  rw [show scaleC { height := 100, width := 100 } (some 1) angle0
      ({ x := 0, y := 0, height := 0, width := 0, angle := angle0 },
        ⟨⟨0, 0⟩, ⟨0, 0⟩, ⟨0, 0⟩, ⟨0, 0⟩⟩)
    = ({ x := 0, y := 0, height := 0, width := 0, angle := angle0 },
        ⟨⟨0, 0⟩, ⟨0, 0⟩, ⟨0, 0⟩, ⟨0, 0⟩⟩) from by
      norm_num [scaleC, isWithin, fitPoint, shiftRequired, sign, maxMagnitude,
        nearestPointInBounds, clamp, setCorner, midpoint, getInverseCorner, Angle.neg,
        rotP, angle0, getCorners]]
  norm_num [scaleD, isWithin, fitPoint, shiftRequired, sign, maxMagnitude,
    nearestPointInBounds, clamp, setCorner, midpoint, getInverseCorner, Angle.neg,
    rotP, angle0]

set_option maxHeartbeats 1600000 in
/-- Evaluation of the SCALE fit on a crop rotated by the angle with cosine
3/5 and sine 4/5, with no aspect constraint. -/
theorem evalScaleRot :
    fitCropScale { x := 170, y := 170, height := 60, width := 200, angle := ⟨3 / 5, 4 / 5⟩ }
        { height := 100, width := 100 } none
      = { x := 57987 / 1250, y := 56691 / 1250, height := 99 / 5, width := 16029 / 125,
          angle := ⟨3 / 5, 4 / 5⟩ } := by
  rw [fitCropScale_steps]
  rw [show ({ x := 170, y := 170, height := 60, width := 200, angle := ⟨3 / 5, 4 / 5⟩ } :
    CropState).angle = (⟨3 / 5, 4 / 5⟩ : Angle) from rfl]
  rw [show getCorners { x := 170, y := 170, height := 60, width := 200, angle := ⟨3 / 5, 4 / 5⟩ }
    = ⟨⟨134, 72⟩, ⟨254, 232⟩, ⟨206, 268⟩, ⟨86, 108⟩⟩ from by norm_num [getCorners, rotP]]
  rw [show scaleA { height := 100, width := 100 } none ⟨3 / 5, 4 / 5⟩
      ({ x := 170, y := 170, height := 60, width := 200, angle := ⟨3 / 5, 4 / 5⟩ },
        ⟨⟨134, 72⟩, ⟨254, 232⟩, ⟨206, 268⟩, ⟨86, 108⟩⟩)
    = ({ x := 63, y := 170, height := 60, width := 200, angle := ⟨3 / 5, 4 / 5⟩ },
        ⟨⟨27, 72⟩, ⟨147, 232⟩, ⟨99, 268⟩, ⟨-21, 108⟩⟩) from by
      norm_num [scaleA, isWithin, fitPoint, shiftRequired, sign, maxMagnitude,
        nearestPointInBounds, clamp, setCorner, midpoint, getInverseCorner, Angle.neg,
        rotP, getCorners]]
  rw [show scaleB { height := 100, width := 100 } none ⟨3 / 5, 4 / 5⟩
      ({ x := 63, y := 170, height := 60, width := 200, angle := ⟨3 / 5, 4 / 5⟩ },
        ⟨⟨27, 72⟩, ⟨147, 232⟩, ⟨99, 268⟩, ⟨-21, 108⟩⟩)
    = ({ x := 39, y := 37, height := 108 / 5, width := 856 / 5, angle := ⟨3 / 5, 4 / 5⟩ },
        ⟨⟨-93 / 25, -949 / 25⟩, ⟨99, 99⟩, ⟨2043 / 25, 2799 / 25⟩, ⟨-21, -25⟩⟩) from by
      norm_num [scaleB, isWithin, fitPoint, shiftRequired, sign, maxMagnitude,
        nearestPointInBounds, clamp, setCorner, midpoint, getInverseCorner, Angle.neg,
        rotP, getCorners, abs_of_nonneg]]
  rw [show scaleC { height := 100, width := 100 } none ⟨3 / 5, 4 / 5⟩
      ({ x := 39, y := 37, height := 108 / 5, width := 856 / 5, angle := ⟨3 / 5, 4 / 5⟩ },
        ⟨⟨-93 / 25, -949 / 25⟩, ⟨99, 99⟩, ⟨2043 / 25, 2799 / 25⟩, ⟨-21, -25⟩⟩)
    = ({ x := 39, y := 763 / 25, height := 1728 / 125, width := 20104 / 125,
          angle := ⟨3 / 5, 4 / 5⟩ },
        ⟨⟨-93 / 25, -949 / 25⟩, ⟨57987 / 625, 56691 / 625⟩, ⟨2043 / 25, 99⟩,
          ⟨-9237 / 625, -18541 / 625⟩⟩) from by
      norm_num [scaleC, isWithin, fitPoint, shiftRequired, sign, maxMagnitude,
        nearestPointInBounds, clamp, setCorner, midpoint, getInverseCorner, Angle.neg,
        rotP, getCorners, abs_of_nonneg]]
  norm_num [scaleD, isWithin, fitPoint, shiftRequired, sign, maxMagnitude,
    nearestPointInBounds, clamp, setCorner, midpoint, getInverseCorner, Angle.neg, rotP,
    abs_of_nonneg]

/-- C1 counterexample: the claim fails as stated. With aspect 1 the SCALE
fit of the angle-0 crop {x:170, y:0, w:200, h:10} on a 100×100 image leaves
corner a at x = −1 < 0; with no aspect but rotation (cos 3/5, sin 4/5) the
SCALE fit of {x:170, y:170, w:200, h:60} leaves corner a at y < 0. -/
theorem C1_cex :
    ¬ (0 ≤ (getCorners (fitCrop { x := 170, y := 0, height := 10, width := 200, angle := angle0 }
        { height := 100, width := 100 } (some 1) .SCALE)).a.x) ∧
    ¬ (0 ≤ (getCorners (fitCrop
        { x := 170, y := 170, height := 60, width := 200, angle := ⟨3 / 5, 4 / 5⟩ }
        { height := 100, width := 100 } none .SCALE)).a.y) := by
  constructor
  · rw [show fitCrop { x := 170, y := 0, height := 10, width := 200, angle := angle0 }
        { height := 100, width := 100 } (some 1) .SCALE
      = fitCropScale { x := 170, y := 0, height := 10, width := 200, angle := angle0 }
        { height := 100, width := 100 } (some 1) from rfl, evalScaleBad1]
    norm_num [getCorners, rotP, angle0]
  · rw [show fitCrop { x := 170, y := 170, height := 60, width := 200, angle := ⟨3 / 5, 4 / 5⟩ }
        { height := 100, width := 100 } none .SCALE
      = fitCropScale { x := 170, y := 170, height := 60, width := 200, angle := ⟨3 / 5, 4 / 5⟩ }
        { height := 100, width := 100 } none from rfl, evalScaleRot]
    norm_num [getCorners, rotP]

/-- C1 amended: for an unrotated crop with nonnegative extents, an image at
least 1×1, and no aspect constraint, every corner of the SCALE fit lies in
`[0, width−1] × [0, height−1]`. (With an aspect ratio or a rotated crop
this fails — see the counterexample.) -/
theorem C1_amended (c : CropState) (image : Dimension)
    (hw : 1 ≤ image.width) (hh : 1 ≤ image.height)
    (hcw : 0 ≤ c.width) (hch : 0 ≤ c.height) (hang : c.angle = angle0) :
    inBounds (getCorners (fitCrop c image none .SCALE)).a image ∧
    inBounds (getCorners (fitCrop c image none .SCALE)).b image ∧
    inBounds (getCorners (fitCrop c image none .SCALE)).c image ∧
    inBounds (getCorners (fitCrop c image none .SCALE)).d image := by
  have h0 : fitCrop c image none .SCALE = fitCropScale c image none := rfl
  rw [h0, fitCropScale_steps, hang]
  obtain ⟨hA1, hA2, hA3, hA4, hA5⟩ :=
    scaleA_inv image c (getCorners c) hw hh rfl hang hcw hch
  obtain ⟨hB1, hB2, hB3, hB4, hB5, hB6⟩ :=
    scaleB_inv image (scaleA image none angle0 (c, getCorners c)).1
      (scaleA image none angle0 (c, getCorners c)).2 hw hh hA1 hA2 hA3 hA4 hA5
  obtain ⟨hC1, hC2, hC3, hC4, hC5, hC6, hC7, hC8⟩ :=
    scaleC_inv image
      (scaleB image none angle0 (scaleA image none angle0 (c, getCorners c))).1
      (scaleB image none angle0 (scaleA image none angle0 (c, getCorners c))).2
      hw hh hB1 hB2 hB3 hB4 hB5 hB6
  exact scaleD_final image
    (scaleC image none angle0 (scaleB image none angle0
      (scaleA image none angle0 (c, getCorners c)))).1
    (scaleC image none angle0 (scaleB image none angle0
      (scaleA image none angle0 (c, getCorners c)))).2
    hw hh hC1 hC5 hC6 hC7 hC8

/-- C1 witness at the crop {x:50, y:50, w:20, h:20, angle 0} on a 100×100
image. -/
theorem C1_witness :
    inBounds (getCorners (fitCrop { x := 50, y := 50, height := 20, width := 20, angle := angle0 }
      { height := 100, width := 100 } none .SCALE)).a { height := 100, width := 100 } ∧
    inBounds (getCorners (fitCrop { x := 50, y := 50, height := 20, width := 20, angle := angle0 }
      { height := 100, width := 100 } none .SCALE)).b { height := 100, width := 100 } ∧
    inBounds (getCorners (fitCrop { x := 50, y := 50, height := 20, width := 20, angle := angle0 }
      { height := 100, width := 100 } none .SCALE)).c { height := 100, width := 100 } ∧
    inBounds (getCorners (fitCrop { x := 50, y := 50, height := 20, width := 20, angle := angle0 }
      { height := 100, width := 100 } none .SCALE)).d { height := 100, width := 100 } :=
  C1_amended { x := 50, y := 50, height := 20, width := 20, angle := angle0 }
    { height := 100, width := 100 } (by norm_num) (by norm_num) (by norm_num) (by norm_num) rfl

/-! ## C5 — resetCrop -/

/-- C5: `resetCrop` with no aspect is the full centered image crop; with a
positive aspect `a` it is centered, angle 0, bound by height when the image
is wider than `a`, else bound by width. -/
theorem C5_resetCrop (image : Dimension) (hw : 0 < image.width) (hh : 0 < image.height) :
    resetCrop image none =
      { x := image.width / 2, y := image.height / 2,
        angle := angle0, width := image.width, height := image.height } ∧
    ∀ a : ℚ, 0 < a →
      ((image.width / image.height > a →
        resetCrop image (some a) =
          { x := image.width / 2, y := image.height / 2,
            width := image.height * a, height := image.height, angle := angle0 }) ∧
       (¬ image.width / image.height > a →
        resetCrop image (some a) =
          { x := image.width / 2, y := image.height / 2,
            width := image.width, height := image.width / a, angle := angle0 })) := by
  refine ⟨rfl, fun a _ => ⟨fun h => ?_, fun h => ?_⟩⟩
  · simp only [resetCrop]
    rw [if_pos h]
  · simp only [resetCrop]
    rw [if_neg h]

/-- C5 witness — Scenarios A and B: image 1000×500 yields
{x:500, y:250, width:1000, height:500, angle:0} with no aspect and
{x:500, y:250, width:500, height:500, angle:0} with aspect 1. -/
theorem C5_witness :
    resetCrop { height := 500, width := 1000 } none
      = { x := 500, y := 250, angle := angle0, width := 1000, height := 500 } ∧
    resetCrop { height := 500, width := 1000 } (some 1)
      = { x := 500, y := 250, width := 500, height := 500, angle := angle0 } := by
  have h := C5_resetCrop { height := 500, width := 1000 } (by norm_num) (by norm_num)
  refine ⟨?_, ?_⟩
  · rw [h.1]
    simp [CropState.mk.injEq]
    norm_num
  · rw [(h.2 1 (by norm_num)).1 (by norm_num)]
    simp [CropState.mk.injEq]
    norm_num

/-! ## C4 — idempotence of fitCrop -/

theorem shiftRequired_of_isWithin {q : Point} {image : Dimension}
    (h : isWithin q image) : shiftRequired q image = ⟨0, 0⟩ := by
  rw [shiftRequired_eq, Shift.mk.injEq]
  exact ⟨shift1d_zero (le_of_lt h.1) (by linarith [h.2.1]),
    shift1d_zero (le_of_lt h.2.2.1) (by linarith [h.2.2.2])⟩

/-- C4 counterexample: `fitCrop` is not idempotent. On the angle-0, aspect-1
crop {x:170, y:0, w:200, h:10} over a 100×100 image a second SCALE fit
yields a different crop than the first (the 1×1 crop at (−1/2,−1/2)
collapses to the zero crop at the origin). -/
theorem C4_cex :
    fitCrop (fitCrop { x := 170, y := 0, height := 10, width := 200, angle := angle0 }
        { height := 100, width := 100 } (some 1) .SCALE)
        { height := 100, width := 100 } (some 1) .SCALE
      ≠ fitCrop { x := 170, y := 0, height := 10, width := 200, angle := angle0 }
        { height := 100, width := 100 } (some 1) .SCALE := by
  rw [show fitCrop { x := 170, y := 0, height := 10, width := 200, angle := angle0 }
      { height := 100, width := 100 } (some 1) .SCALE
    = fitCropScale { x := 170, y := 0, height := 10, width := 200, angle := angle0 }
      { height := 100, width := 100 } (some 1) from rfl, evalScaleBad1]
  rw [show fitCrop { x := -1 / 2, y := -1 / 2, height := 1, width := 1, angle := angle0 }
      { height := 100, width := 100 } (some 1) .SCALE
    = fitCropScale { x := -1 / 2, y := -1 / 2, height := 1, width := 1, angle := angle0 }
      { height := 100, width := 100 } (some 1) from rfl, evalScaleBad2]
  norm_num [CropState.mk.injEq]

/-- C4 amended: `fitCrop` is not idempotent in general, but a crop all of
whose corners lie strictly within the image (in the sense of the source's
`isWithin`) is returned unchanged, in both modes and for any aspect. -/
theorem C4_amended (c : CropState) (image : Dimension) (asp : Option ℚ)
    (t : Transformations)
    (hfit : isWithin (getCorners c).a image ∧ isWithin (getCorners c).b image ∧
      isWithin (getCorners c).c image ∧ isWithin (getCorners c).d image) :
    fitCrop c image asp t = c := by
  obtain ⟨ha, hb, hc, hd⟩ := hfit
  cases t
  case SCALE =>
    rw [show fitCrop c image asp .SCALE = fitCropScale c image asp from rfl,
      fitCropScale_steps]
    simp [scaleA, scaleB, scaleC, scaleD, ha, hb, hc, hd]
  case TRANSLATE =>
    unfold fitCrop
    dsimp only
    simp only [List.map_cons, List.map_nil]
    rw [shiftRequired_of_isWithin ha, shiftRequired_of_isWithin hb,
      shiftRequired_of_isWithin hc, shiftRequired_of_isWithin hd]
    norm_num [transFold, transStep]

/-- C4 witness: the crop {x:50, y:50, w:20, h:20, angle 0} fits strictly in
a 100×100 image and `fitCrop` with aspect 1 in TRANSLATE mode returns it
unchanged. -/
theorem C4_witness :
    fitCrop { x := 50, y := 50, height := 20, width := 20, angle := angle0 }
        { height := 100, width := 100 } (some 1) .TRANSLATE
      = { x := 50, y := 50, height := 20, width := 20, angle := angle0 } :=
  C4_amended { x := 50, y := 50, height := 20, width := 20, angle := angle0 }
    { height := 100, width := 100 } (some 1) .TRANSLATE
    (by norm_num [isWithin, getCorners, rotP, angle0])

/-! ## C2 — aspect preservation -/

/-- Behavior of `setCorner` on a point reached from `o` along the rotated aspect
direction: the extents are `|t·a|` and `|t·diag|`. -/
theorem setCorner_on_slope (o : Point) (θ : Angle) (hθ : θ.unit) (a diag t : ℚ) :
    (setCorner ⟨o.x + t * (rotP θ ⟨a, diag⟩).x, o.y + t * (rotP θ ⟨a, diag⟩).y⟩
        o θ).width = |t * a| ∧
    (setCorner ⟨o.x + t * (rotP θ ⟨a, diag⟩).x, o.y + t * (rotP θ ⟨a, diag⟩).y⟩
        o θ).height = |t * diag| := by
  have hu : θ.c ^ 2 + θ.s ^ 2 = 1 := hθ
  unfold setCorner midpoint getInverseCorner rotP Angle.neg
  dsimp only
  constructor
  · congr 1
    linear_combination t * a * hu
  · congr 1
    linear_combination t * diag * hu

/-- With an aspect constraint, the crop `fitPoint` returns has width `|t·a|`
and height `|t·diag|` for some parameter t. -/
theorem fitPoint_aspect_dims (p o : Point) (image : Dimension) (a : ℚ)
    (θ : Angle) (diag : ℚ) (hθ : θ.unit) :
    ∃ t : ℚ, (fitPoint p o image (some a) θ diag).width = |t * a| ∧
      (fitPoint p o image (some a) θ diag).height = |t * diag| := by
  unfold fitPoint
  dsimp only
  exact ⟨_, setCorner_on_slope _ θ hθ a diag _⟩

/-- A nondegenerate aspect-constrained `fitPoint` result has ratio exactly
the aspect. -/
theorem fitPoint_keepsAspect (p o : Point) (image : Dimension) (a : ℚ) (θ : Angle)
    (diag : ℚ) (hθ : θ.unit) (ha : 0 < a) (hd : diag = 1 ∨ diag = -1)
    (hne : (fitPoint p o image (some a) θ diag).height ≠ 0) :
    (fitPoint p o image (some a) θ diag).width /
      (fitPoint p o image (some a) θ diag).height = a := by
  obtain ⟨t, hwid, hht⟩ := fitPoint_aspect_dims p o image a θ diag hθ
  have hdiag : |diag| = 1 := by
    rcases hd with h | h <;> rw [h] <;> norm_num
  rw [hht, abs_mul, hdiag, mul_one] at hne
  rw [hwid, hht, abs_mul, abs_mul, hdiag, mul_one, abs_of_pos ha]
  rw [mul_comm (|t|) a, mul_div_assoc, div_self hne, mul_one]

set_option maxHeartbeats 1600000 in
/-- The SCALE fit returns either the input crop or the result of one of the
four `fitPoint` fixes (diagonal ±1, at the crop's own angle). -/
theorem fitCropScale_cases (c : CropState) (image : Dimension) (asp : Option ℚ) :
    fitCropScale c image asp = c ∨
      ∃ p o diag, (diag = 1 ∨ diag = -1) ∧
        fitCropScale c image asp = fitPoint p o image asp c.angle diag := by
  rw [fitCropScale_steps]
  unfold scaleA scaleB scaleC scaleD
  dsimp only
  split_ifs <;>
    first
      | exact Or.inl rfl
      | exact Or.inr ⟨_, _, 1, Or.inl rfl, rfl⟩
      | exact Or.inr ⟨_, _, -1, Or.inr rfl, rfl⟩

theorem fitCropScale_keepsAspect (c : CropState) (image : Dimension) (a : ℚ)
    (hθ : c.angle.unit) (ha : 0 < a) (hr : c.width / c.height = a)
    (hne : (fitCropScale c image (some a)).height ≠ 0) :
    (fitCropScale c image (some a)).width /
      (fitCropScale c image (some a)).height = a := by
  rcases fitCropScale_cases c image (some a) with h | ⟨p, o, diag, hd, h⟩
  · rw [h]
    exact hr
  · rw [h] at hne ⊢
    exact fitPoint_keepsAspect p o image a c.angle diag hθ ha hd hne

/-- The TRANSLATE fit returns the input, a pure translation of it, or a
SCALE fit of a crop with the same angle and extents. -/
theorem fitCrop_translate_cases (c : CropState) (image : Dimension) (asp : Option ℚ) :
    fitCrop c image asp .TRANSLATE = c ∨
    (∃ d : Shift, fitCrop c image asp .TRANSLATE
      = { c with x := c.x + d.dx, y := c.y + d.dy }) ∨
    (∃ c2 : CropState, c2.angle = c.angle ∧ c2.width = c.width ∧ c2.height = c.height ∧
      fitCrop c image asp .TRANSLATE = fitCropScale c2 image asp) := by
  unfold fitCrop
  dsimp only
  split
  · exact Or.inr (Or.inr ⟨c, rfl, rfl, rfl, rfl⟩)
  · rename_i delta heq
    split_ifs
    · exact Or.inl rfl
    · exact Or.inr (Or.inr ⟨{ c with x := c.x + delta.dx, y := c.y + delta.dy },
        rfl, rfl, rfl, rfl⟩)
    · exact Or.inr (Or.inl ⟨delta, rfl⟩)

/-- C2 counterexample: at `p = o = (5,5)` with aspect 1, angle 0, diagonal 1
on a 100×100 image, `fitPoint` returns a degenerate crop whose width/height
is 0, not ≈ 1. -/
theorem C2_cex :
    (fitPoint ⟨5, 5⟩ ⟨5, 5⟩ { height := 100, width := 100 } (some 1) angle0 1).width /
      (fitPoint ⟨5, 5⟩ ⟨5, 5⟩ { height := 100, width := 100 } (some 1) angle0 1).height
      ≠ 1 ∧
    approxEqual
      ((fitPoint ⟨5, 5⟩ ⟨5, 5⟩ { height := 100, width := 100 } (some 1) angle0 1).width /
        (fitPoint ⟨5, 5⟩ ⟨5, 5⟩ { height := 100, width := 100 } (some 1) angle0 1).height)
      1 = false := by
  have h : fitPoint ⟨5, 5⟩ ⟨5, 5⟩ { height := 100, width := 100 } (some 1) angle0 1
      = { x := 5, y := 5, height := 0, width := 0, angle := angle0 } := by
    norm_num [fitPoint, shiftRequired, sign, maxMagnitude, rotP, angle0, clamp,
      setCorner, midpoint, getInverseCorner, Angle.neg, nearestPointInBounds]
  rw [h]
  constructor
  · norm_num
  · norm_num [approxEqual, maxMagnitude, eps]

/-- C2 amended: with a nonzero resulting height, every aspect-constrained
`fitPoint` result has width/height exactly the aspect; and `fitCrop` with
aspect `a` maps a ratio-`a` crop to a ratio-`a` crop, in either mode
(degenerate zero-height results are the only exception — see the
counterexample). Rotation angles are those on the rational unit circle. -/
theorem C2_amended (p o : Point) (image : Dimension) (a : ℚ) (θ : Angle)
    (diag : ℚ) (c : CropState) (t : Transformations)
    (hθ : θ.unit) (hθc : c.angle.unit) (ha : 0 < a)
    (hd : diag = 1 ∨ diag = -1) (hr : c.width / c.height = a) :
    ((fitPoint p o image (some a) θ diag).height ≠ 0 →
      (fitPoint p o image (some a) θ diag).width /
        (fitPoint p o image (some a) θ diag).height = a) ∧
    ((fitCrop c image (some a) t).height ≠ 0 →
      (fitCrop c image (some a) t).width /
        (fitCrop c image (some a) t).height = a) := by
  constructor
  · exact fun hne => fitPoint_keepsAspect p o image a θ diag hθ ha hd hne
  · intro hne
    cases t
    case SCALE => exact fitCropScale_keepsAspect c image a hθc ha hr hne
    case TRANSLATE =>
      rcases fitCrop_translate_cases c image (some a) with h | ⟨d, h⟩ | ⟨c2, hang2, hwd, hht, h⟩
      · rw [h]
        exact hr
      · rw [h]
        exact hr
      · rw [h] at hne ⊢
        refine fitCropScale_keepsAspect c2 image a ?_ ha ?_ hne
        · rw [hang2]
          exact hθc
        · rw [hwd, hht]
          exact hr

/-- C2 witness at p = (150,50), o = (10,10), image 100×100, aspect 1,
angle 0, diagonal 1, and the square crop {x:50, y:50, w:20, h:20}. -/
theorem C2_witness :
    ((fitPoint ⟨150, 50⟩ ⟨10, 10⟩ { height := 100, width := 100 } (some 1) angle0 1).height ≠ 0 →
      (fitPoint ⟨150, 50⟩ ⟨10, 10⟩ { height := 100, width := 100 } (some 1) angle0 1).width /
        (fitPoint ⟨150, 50⟩ ⟨10, 10⟩ { height := 100, width := 100 } (some 1) angle0 1).height
        = 1) ∧
    ((fitCrop { x := 50, y := 50, height := 20, width := 20, angle := angle0 }
        { height := 100, width := 100 } (some 1) .SCALE).height ≠ 0 →
      (fitCrop { x := 50, y := 50, height := 20, width := 20, angle := angle0 }
        { height := 100, width := 100 } (some 1) .SCALE).width /
        (fitCrop { x := 50, y := 50, height := 20, width := 20, angle := angle0 }
          { height := 100, width := 100 } (some 1) .SCALE).height = 1) :=
  C2_amended ⟨150, 50⟩ ⟨10, 10⟩ { height := 100, width := 100 } 1 angle0 1
    { x := 50, y := 50, height := 20, width := 20, angle := angle0 } .SCALE
    (by norm_num [Angle.unit, angle0]) (by norm_num [Angle.unit, angle0])
    (by norm_num) (Or.inl rfl) (by norm_num)

/-! ## C6 — fitPoint can collapse the rectangle -/

/-- C6 (code bug): at `p = o = (5,5)`, image 100×100, aspect 1, angle 0,
diagonal 1, `fitPoint` returns a crop with width = height = 0, violating
the non-degeneracy invariant the source's own comment promises to protect
("we want to avoid a situation where the crop rectangle becomes 1 or 0
dimensional"). -/
theorem C6_fitPoint_collapse :
    fitPoint ⟨5, 5⟩ ⟨5, 5⟩ { height := 100, width := 100 } (some 1) angle0 1
      = { x := 5, y := 5, height := 0, width := 0, angle := angle0 } := by
  norm_num [fitPoint, shiftRequired, sign, maxMagnitude, rotP, angle0, clamp,
    setCorner, midpoint, getInverseCorner, Angle.neg, nearestPointInBounds]

/-! ## C7 — shiftRequired -/

/-- C7 counterexample: at x = 99.5 on a width-100 image the claim says the
displacement is 0 iff 99.5 ∈ [0, 99] (false), yet the code returns dx = 0,
so the claimed equivalence fails. -/
theorem C7_cex :
    ¬ (((shiftRequired ⟨199 / 2, 10⟩ { height := 100, width := 100 }).dx = 0) ↔
        (0 ≤ (199 / 2 : ℚ) ∧ (199 / 2 : ℚ) ≤ 100 - 1)) := by
  norm_num [shiftRequired]

/-- C7 amended: per axis, the displacement is 0 iff the coordinate lies in
`[0, dim)` (not `[0, dim−1]`); below 0 it is the correction to 0; at or
above `dim` it is the correction to `dim−1`. -/
theorem C7_amended (p : Point) (image : Dimension)
    (hw : 0 < image.width) (hh : 0 < image.height) :
    ((shiftRequired p image).dx = 0 ↔ 0 ≤ p.x ∧ p.x < image.width) ∧
    (p.x < 0 → (shiftRequired p image).dx = -p.x) ∧
    (image.width ≤ p.x → (shiftRequired p image).dx = image.width - 1 - p.x) ∧
    ((shiftRequired p image).dy = 0 ↔ 0 ≤ p.y ∧ p.y < image.height) ∧
    (p.y < 0 → (shiftRequired p image).dy = -p.y) ∧
    (image.height ≤ p.y → (shiftRequired p image).dy = image.height - 1 - p.y) := by
  rw [shiftRequired_eq]
  have hx := shift1d_spec p.x image.width hw
  have hy := shift1d_spec p.y image.height hh
  exact ⟨hx.1, hx.2.1, hx.2.2, hy.1, hy.2.1, hy.2.2⟩

/-- C7 witness — Scenario D: `shiftRequired({x:−5, y:10}, 100×100)` returns
dx = 5, dy = 0. -/
theorem C7_witness :
    (shiftRequired ⟨-5, 10⟩ { height := 100, width := 100 }).dx = 5 ∧
    (shiftRequired ⟨-5, 10⟩ { height := 100, width := 100 }).dy = 0 := by
  have h := C7_amended ⟨-5, 10⟩ { height := 100, width := 100 }
    (by norm_num) (by norm_num)
  constructor
  · rw [h.2.1 (by norm_num)]
    norm_num
  · exact h.2.2.2.1.mpr (by norm_num)

/-! ## C8 — corner midpoints recover the center -/

/-- C8: for any crop with positive width and height, the midpoint of corners
a and c is exactly the crop center, and likewise for b and d (exact
rational arithmetic subsumes the claim's floating tolerance). -/
theorem C8_corner_midpoints (c : CropState) (hw : 0 < c.width) (hh : 0 < c.height) :
    midpoint (getCorners c).a (getCorners c).c = ⟨c.x, c.y⟩ ∧
    midpoint (getCorners c).b (getCorners c).d = ⟨c.x, c.y⟩ := by
  unfold getCorners midpoint rotP
  dsimp only
  constructor <;> (simp only [Point.mk.injEq]; constructor <;> ring)

/-- C8 witness at the crop centered at (5,7), width 2, height 4, rotated by
the angle with cosine 3/5 and sine 4/5. -/
theorem C8_witness :
    midpoint (getCorners ⟨5, 7, 4, 2, ⟨3 / 5, 4 / 5⟩⟩).a
        (getCorners ⟨5, 7, 4, 2, ⟨3 / 5, 4 / 5⟩⟩).c = ⟨5, 7⟩ ∧
    midpoint (getCorners ⟨5, 7, 4, 2, ⟨3 / 5, 4 / 5⟩⟩).b
        (getCorners ⟨5, 7, 4, 2, ⟨3 / 5, 4 / 5⟩⟩).d = ⟨5, 7⟩ :=
  C8_corner_midpoints ⟨5, 7, 4, 2, ⟨3 / 5, 4 / 5⟩⟩ (by norm_num) (by norm_num)

/-! ## C9 — approxEqual -/

/-- C9 counterexample: at a = b = −1 the code returns false (it multiplies
by the signed `maxMagnitude`, here −1), while the claim's
`|a−b| < |maxMagnitude(a,b)|·ε` is true, so the claimed equivalence fails. -/
theorem C9_cex :
    ¬ ((approxEqual (-1) (-1) = true) ↔
        |(-1 : ℚ) - (-1)| < |maxMagnitude (-1) (-1)| * eps) := by
  norm_num [approxEqual, maxMagnitude, eps]

/-- C9 amended: `approxEqual(a,b)` is true iff `|a−b| < maxMagnitude(a,b)·ε`
with the signed (not absolute) `maxMagnitude`; consequently
`approxEqual(a,a)` holds iff `a > 0`, not for every nonzero `a`. -/
theorem C9_amended (a b : ℚ) :
    (approxEqual a b = true ↔ |a - b| < maxMagnitude a b * eps) ∧
    (approxEqual a a = true ↔ 0 < a) := by
  have heps : (0 : ℚ) < eps := by norm_num [eps]
  constructor
  · simp [approxEqual]
  · simp only [approxEqual, decide_eq_true_eq, sub_self, abs_zero, maxMagnitude,
      lt_self_iff_false, if_neg, not_false_eq_true, abs_lt]
    constructor
    · intro h
      nlinarith
    · intro h
      nlinarith

/-! ## C10 — fitCrop never changes the angle -/

theorem fitCropScale_angle (c : CropState) (image : Dimension) (asp : Option ℚ) :
    (fitCropScale c image asp).angle = c.angle := by
  unfold fitCropScale
  dsimp only
  split_ifs <;> simp [fitPoint_angle]

/-- C10: `fitCrop` returns a crop whose angle equals the input's angle, in
both TRANSLATE and SCALE modes, through every fallback path. -/
theorem C10_angle_preserved (c : CropState) (image : Dimension) (asp : Option ℚ)
    (t : Transformations) : (fitCrop c image asp t).angle = c.angle := by
  cases t
  case SCALE => exact fitCropScale_angle c image asp
  case TRANSLATE =>
    unfold fitCrop
    dsimp only
    split
    · exact fitCropScale_angle c image asp
    · split_ifs <;> simp [fitCropScale_angle]

end ImageCrop
